import Mathlib

/-!
Verification development for the flowninjas-core workflow engine.

Shallow embedding of the repository's data model (`app/models/workflow.py`),
the validator and deterministic step compiler (`app/services/workflow_service.py`),
the fenced-block extraction helpers (`app/services/ai_service.py`), and the
generate/validate HTTP handlers (`app/api/v1/endpoints/workflows.py`).

Conventions:
- Python `Optional[T]` becomes `Option T`.
- Python dictionaries with string keys become ordered association lists
  (`List (String × _)`), since insertion order is what the code relies on.
- Python/JSON/YAML values become the inductive `PyVal`.
- Raising an exception becomes `Except`/an explicit error component; a
  `try/except` block becomes a `match` on that component.
- Awaited collaborator calls (the Gemini client) are modelled as explicit
  function parameters (oracles), since their behaviour is external to the
  repository.
- Presentation-only fields (`position`, timestamps) carry no behaviour in any
  modelled operation and are omitted from the embedding.
-/

set_option autoImplicit false

/-- Python/JSON/YAML-style values: the shapes the services build. -/
inductive PyVal : Type where
  | null : PyVal
  | str (s : String) : PyVal
  | int (n : Int) : PyVal
  | list (xs : List PyVal) : PyVal
  | obj (fields : List (String × PyVal)) : PyVal
deriving Repr

/-- Boolean equality on `PyVal` (the derived instance is unavailable for this
nested inductive). -/
def PyVal.beq : PyVal → PyVal → Bool
  | .null, .null => true
  | .str a, .str b => a == b
  | .int a, .int b => a == b
  | .list [], .list [] => true
  | .list (x :: xs), .list (y :: ys) => PyVal.beq x y && PyVal.beq (.list xs) (.list ys)
  | .obj [], .obj [] => true
  | .obj ((k, v) :: fs), .obj ((l, u) :: gs) =>
      k == l && PyVal.beq v u && PyVal.beq (.obj fs) (.obj gs)
  | _, _ => false

theorem PyVal.beq_iff : ∀ a b : PyVal, PyVal.beq a b = true ↔ a = b := by
  intro a b
  induction a, b using PyVal.beq.induct <;> simp_all [PyVal.beq]
  next a b h1 h2 h3 h4 h5 h6 h7 =>
    intro heq
    subst heq
    cases a with
    | null => exact h1 rfl rfl
    | str s => exact h2 s s rfl rfl
    | int n => exact h3 n n rfl rfl
    | list xs =>
        cases xs with
        | nil => exact h4 rfl rfl
        | cons x xs => exact h5 x xs x xs rfl rfl
    | obj fs =>
        cases fs with
        | nil => exact h6 rfl rfl
        | cons p fs =>
            cases p with
            | mk k v => exact h7 k v fs k v fs rfl rfl

instance : DecidableEq PyVal := fun a b =>
  decidable_of_iff (PyVal.beq a b = true) (PyVal.beq_iff a b)

/-- Node types, from `WorkflowNodeType` in `app/models/workflow.py`. -/
inductive WorkflowNodeType : Type where
  | start
  | end_
  | cloud_function
  | cloud_run
  | pubsub_publish
  | pubsub_subscribe
  | http_request
  | condition
  | parallel
  | delay
  | assign
  | call
  | switch
  | for_loop
  | try_catch
deriving DecidableEq, Repr

/-- Node configuration, from `WorkflowNodeConfig`. Only fields read by the
modelled operations are kept; every optional field defaults to `none` as in
the pydantic model, except `method`, whose pydantic default is `"GET"`. -/
structure WorkflowNodeConfig : Type where
  name : String
  description : Option String := none
  function_name : Option String := none
  service_name : Option String := none
  topic_name : Option String := none
  subscription_name : Option String := none
  url : Option String := none
  method : Option String := some "GET"
  headers : Option (List (String × String)) := none
  body : Option (List (String × PyVal)) := none
  condition : Option String := none
  delay_seconds : Option Int := none
  ai_prompt : Option String := none
deriving DecidableEq, Repr

/-- A workflow node, from `WorkflowNode` (position and timestamps omitted:
presentation-only). -/
structure WorkflowNode : Type where
  id : String
  type : WorkflowNodeType
  config : WorkflowNodeConfig
  inputs : List String := []
  outputs : List String := []
deriving DecidableEq, Repr

/-- A directed edge, from `WorkflowConnection`. -/
structure WorkflowConnection : Type where
  id : String
  source_node_id : String
  target_node_id : String
  source_handle : Option String := none
  target_handle : Option String := none
  condition : Option String := none
deriving DecidableEq, Repr

/-- Workflow metadata, from `WorkflowMetadata` (timestamps omitted). -/
structure WorkflowMetadata : Type where
  name : String
  description : Option String := none
  version : String := "1.0.0"
  tags : List String := []
  author : Option String := none
  project_id : Option String := none
  region : String := "us-central1"
  timeout : Option String := none
deriving DecidableEq, Repr

/-- The aggregate root, from `Workflow`. The pydantic `validate_nodes`
constructor check is modelled separately by `Workflow.validate_nodes` and
`mkWorkflow`; the bare structure admits any node list so that the service
functions can be stated over arbitrary inputs. -/
structure Workflow : Type where
  id : String
  metadata : WorkflowMetadata
  nodes : List WorkflowNode
  connections : List WorkflowConnection
deriving DecidableEq, Repr

/-- The generation request envelope, from `WorkflowGenerationRequest`. -/
structure WorkflowGenerationRequest : Type where
  workflow : Workflow
  target_format : String := "yaml"
  include_deployment : Bool := true
  ai_enhance : Bool := true
deriving DecidableEq, Repr

/-- Python truthiness of an `Optional[str]`: `None` and `""` are falsy. -/
def pyStrFalsy (o : Option String) : Bool :=
  o.getD "" == ""

/-- The `validate_nodes` pydantic validator on `Workflow.nodes`
(`app/models/workflow.py` lines 127-143): raises (here `Except.error`) unless
the node list is non-empty with exactly one `start` node and at least one
`end` node. -/
def Workflow.validate_nodes (nodes : List WorkflowNode) :
    Except String (List WorkflowNode) :=
  if nodes.isEmpty then
    .error "Workflow must have at least one node"
  else if (nodes.filter fun n => n.type == WorkflowNodeType.start).length ≠ 1 then
    .error "Workflow must have exactly one start node"
  else if (nodes.filter fun n => n.type == WorkflowNodeType.end_).length < 1 then
    .error "Workflow must have at least one end node"
  else
    .ok nodes

/-- Constructing a `Workflow` value as pydantic does: the `nodes` field passes
through `validate_nodes`; any failure rejects the whole construction. -/
def mkWorkflow (id : String) (metadata : WorkflowMetadata)
    (nodes : List WorkflowNode) (connections : List WorkflowConnection) :
    Except String Workflow :=
  match Workflow.validate_nodes nodes with
  | .error e => .error e
  | .ok ns => .ok ⟨id, metadata, ns, connections⟩

/-- Per-node required-field checks, from `WorkflowService._validate_node_config`
(`app/services/workflow_service.py` lines 181-209). -/
def validate_node_config (node : WorkflowNode) : List String :=
  match node.type with
  | .cloud_function =>
      if pyStrFalsy node.config.function_name then
        ["Cloud Function node '" ++ node.config.name ++ "' missing function_name"]
      else []
  | .cloud_run =>
      if pyStrFalsy node.config.service_name then
        ["Cloud Run node '" ++ node.config.name ++ "' missing service_name"]
      else []
  | .pubsub_publish =>
      if pyStrFalsy node.config.topic_name then
        ["Pub/Sub Publish node '" ++ node.config.name ++ "' missing topic_name"]
      else []
  | .pubsub_subscribe =>
      if pyStrFalsy node.config.subscription_name then
        ["Pub/Sub Subscribe node '" ++ node.config.name ++ "' missing subscription_name"]
      else []
  | .http_request =>
      if pyStrFalsy node.config.url then
        ["HTTP Request node '" ++ node.config.name ++ "' missing url"]
      else []
  | .condition =>
      if pyStrFalsy node.config.condition then
        ["Condition node '" ++ node.config.name ++ "' missing condition"]
      else []
  | _ => []

/-- A node is neither `start` nor `end` (the Python
`node.type not in [WorkflowNodeType.START, WorkflowNodeType.END]`). -/
def is_middle_node (n : WorkflowNode) : Bool :=
  !(n.type == WorkflowNodeType.start) && !(n.type == WorkflowNodeType.end_)

/-- A node id appears among the connection endpoints (the Python membership
tests against `connection_targets`/`connection_sources`). -/
def is_connected (w : Workflow) (n : WorkflowNode) : Bool :=
  w.connections.any (fun c => c.target_node_id == n.id) ||
    w.connections.any (fun c => c.source_node_id == n.id)

/-- The orphan-detection pass of `WorkflowService.validate_workflow`
(lines 168-172): one issue, in node order, for each non-start/end node that is
not an endpoint of any connection. -/
def connectivity_issues (w : Workflow) : List String :=
  (w.nodes.filter fun n => is_middle_node n && !(is_connected w n)).map
    (fun n => "Node '" ++ n.config.name ++ "' is not connected")

/-- `WorkflowService.validate_workflow` (lines 149-179): cardinality issues,
then orphan issues, then per-node configuration issues, in the order the
Python code appends them. -/
def validate_workflow (w : Workflow) : List String :=
  (if (w.nodes.filter fun n => n.type == WorkflowNodeType.start).length = 1 then []
   else ["Workflow must have exactly one START node"]) ++
  (if (w.nodes.filter fun n => n.type == WorkflowNodeType.end_).length = 0 then
    ["Workflow must have at least one END node"]
   else []) ++
  connectivity_issues w ++
  (w.nodes.map validate_node_config).flatten

/-- A call to the validator, with the post-state of its argument made
explicit: the Python function never assigns into `workflow`, so the call
returns the issues together with the untouched workflow value. -/
def validate_workflow_call (w : Workflow) : List String × Workflow :=
  (validate_workflow w, w)

/-- Response of the `POST /workflows/validate` handler
(`app/api/v1/endpoints/workflows.py` lines 99-123). -/
structure ValidateResponse : Type where
  workflow_id : String
  is_valid : Bool
  issues : List String
  message : String
deriving DecidableEq, Repr

/-- The `POST /workflows/validate` handler body: run the validator, report
`is_valid = (len(issues) == 0)` and the matching message. -/
def validate_endpoint (w : Workflow) : ValidateResponse :=
  let issues := validate_workflow w
  let is_valid := issues.length = 0
  { workflow_id := w.id
    is_valid := is_valid
    issues := issues
    message := if is_valid then "Workflow is valid" else "Workflow has validation issues" }

/-- Application settings used by the step compiler: only
`GOOGLE_CLOUD_PROJECT` is read (`app/core/config.py`). -/
structure Settings : Type where
  GOOGLE_CLOUD_PROJECT : String
deriving DecidableEq, Repr

/-- Python f-string rendering of an `Optional[str]`: `None` prints as
`"None"`. -/
def pyFStr (o : Option String) : String :=
  match o with
  | some s => s
  | none => "None"

/-- Python `x or default` on an `Optional[str]`: `None` and `""` fall back. -/
def pyOrStr (o : Option String) (d : String) : String :=
  match o with
  | some s => if s == "" then d else s
  | none => d

/-- Python `x or 1` on an `Optional[int]`: `None` and `0` fall back to `1`. -/
def pyOrOneInt (o : Option Int) : Int :=
  match o with
  | some n => if n == 0 then 1 else n
  | none => 1

/-- Value placed in a dict for an `Optional[str]` field used directly:
`None` stays `None`. -/
def pyValOfOptStr (o : Option String) : PyVal :=
  match o with
  | some s => .str s
  | none => .null

/-- `WorkflowService._node_to_workflow_step` (lines 235-283): the closed
type-to-step table. -/
def node_to_workflow_step (st : Settings) (node : WorkflowNode) : PyVal :=
  match node.type with
  | .cloud_function =>
      .obj [("call", .str "googleapis.cloudfunctions.v1.projects.locations.functions.call"),
            ("args", .obj [("name", .str ("projects/" ++ st.GOOGLE_CLOUD_PROJECT ++
                              "/locations/" ++ pyFStr node.config.function_name)),
                           ("data", .str "${input}")]),
            ("result", .str "function_result")]
  | .http_request =>
      .obj [("call", .str "http.request"),
            ("args", .obj [("url", pyValOfOptStr node.config.url),
                           ("method", .str (pyOrStr node.config.method "GET")),
                           ("headers", .obj ((node.config.headers.getD []).map
                              (fun p => (p.1, PyVal.str p.2)))),
                           ("body", .obj (node.config.body.getD []))]),
            ("result", .str "http_result")]
  | .condition =>
      .obj [("switch", .list [.obj [("condition", pyValOfOptStr node.config.condition),
                                    ("next", .str "continue")]]),
            ("next", .str "end")]
  | .delay =>
      .obj [("call", .str "sys.sleep"),
            ("args", .obj [("seconds", .int (pyOrOneInt node.config.delay_seconds))])]
  | _ =>
      .obj [("assign", .list [.obj [("result", .str ("Processed " ++ node.config.name))]])]

/-- The keyed entry the compiler loop appends for an emitted (non-start)
node at enumeration index `i`: `end` nodes get the terminal return step keyed
`end_step_<i>`, all others get their lowered step keyed `step_<i>`. -/
def step_entry (st : Settings) (i : Nat) (n : WorkflowNode) : String × PyVal :=
  if n.type == WorkflowNodeType.end_ then
    ("end_step_" ++ toString i, .obj [("return", .str "${result}")])
  else
    ("step_" ++ toString i, node_to_workflow_step st n)

/-- The `for i, node in enumerate(workflow.nodes)` loop of
`WorkflowService._generate_basic_workflow_yaml` (lines 220-231), with the
enumeration counter made an explicit argument: `start` nodes are skipped,
every other node appends one keyed step entry. -/
def steps_aux (st : Settings) : Nat → List WorkflowNode → List (String × PyVal)
  | _, [] => []
  | i, n :: rest =>
      if n.type == WorkflowNodeType.start then steps_aux st (i + 1) rest
      else step_entry st i n :: steps_aux st (i + 1) rest

/-- The full list of keyed step entries emitted for a workflow. -/
def workflow_steps (st : Settings) (w : Workflow) : List (String × PyVal) :=
  steps_aux st 0 w.nodes

/-- The step-document built by `_generate_basic_workflow_yaml` before
serialization: `{"main": {"steps": [...]}}`, each step a single-key object. -/
def generate_basic_workflow_yaml_doc (st : Settings) (w : Workflow) : PyVal :=
  .obj [("main", .obj [("steps",
    .list ((workflow_steps st w).map (fun p => PyVal.obj [p])))])]

/-- `_generate_basic_workflow_yaml` (lines 211-233): the document above pushed
through the serializer. `yaml.dump` is an external library function, so the
serializer is an explicit parameter; everything the repository controls is the
document. -/
def generate_basic_workflow_yaml (dump : PyVal → String) (st : Settings)
    (w : Workflow) : String :=
  dump (generate_basic_workflow_yaml_doc st w)

/-- A call to the deterministic compiler with the post-state of its argument
made explicit (the Python code never assigns into `workflow`). -/
def generate_basic_workflow_yaml_call (dump : PyVal → String) (st : Settings)
    (w : Workflow) : String × Workflow :=
  (generate_basic_workflow_yaml dump st w, w)

/-! ### Fenced-block extraction (`app/services/ai_service.py`) -/

/-- The three-character fence delimiter the extraction helpers search for. -/
def fence : List Char := "```".data

/-- Python `haystack.find(needle)`: index of the first occurrence, `none`
standing for Python's `-1`. -/
def findSub : List Char → List Char → Option Nat
  | [], needle => if needle.isEmpty then some 0 else none
  | c :: rest, needle =>
      if needle.isPrefixOf (c :: rest) then some 0
      else (findSub rest needle).map (· + 1)

/-- Python `haystack.find(needle, start)`. -/
def findFrom (hay needle : List Char) (start : Nat) : Option Nat :=
  (findSub (hay.drop start) needle).map (· + start)

/-- Python `str.strip()` restricted to ASCII whitespace. -/
def pyStrip (s : List Char) : List Char :=
  ((s.dropWhile Char.isWhitespace).reverse.dropWhile Char.isWhitespace).reverse

/-- Python `response[start:end].strip()` where `end` is the result of a
`find` call: a found index slices up to it, Python's `-1` (not found) slices
up to the last character exclusive. -/
def slice_strip (r : List Char) (start : Nat) (stop : Option Nat) : List Char :=
  match stop with
  | some j => pyStrip ((r.take j).drop start)
  | none => pyStrip ((r.take (r.length - 1)).drop start)

/-- The shared body of `_extract_yaml_from_response` (lines 269-282),
`_extract_code_from_response` (lines 284-298) and the string-extraction part
of `_extract_json_from_response` (lines 300-312): look for a block opener
tagged with `tag`, else for any fence, else fall back to the whole stripped
response. -/
def extract_tagged (tag : List Char) (r : List Char) : List Char :=
  match findSub r (fence ++ tag) with
  | some i =>
      slice_strip r (i + (fence ++ tag).length)
        (findFrom r fence (i + (fence ++ tag).length))
  | none =>
      match findSub r fence with
      | some j => slice_strip r (j + 3) (findFrom r fence (j + 3))
      | none => pyStrip r

/-- `AIService._extract_code_from_response(response, language)`. -/
def extract_code_from_response (response language : String) : String :=
  String.mk (extract_tagged language.data response.data)

/-- `AIService._extract_yaml_from_response(response)`: the same algorithm
with the fixed tag `yaml`. -/
def extract_yaml_from_response (response : String) : String :=
  String.mk (extract_tagged "yaml".data response.data)

/-- Modelled from the spec: the response "contains a fenced block tagged with
the expected content hint" — a tagged opener followed later by a closing
fence. -/
def has_tagged_block (r tag : List Char) : Bool :=
  match findSub r (fence ++ tag) with
  | some i => (findFrom r fence (i + (fence ++ tag).length)).isSome
  | none => false

/-- Modelled from the spec: the interior text of the tagged fenced block —
the characters strictly between the end of the tagged opener and the next
closing fence. -/
def tagged_block_interior (r tag : List Char) : List Char :=
  match findSub r (fence ++ tag) with
  | some i =>
      match findFrom r fence (i + (fence ++ tag).length) with
      | some j => (r.take j).drop (i + (fence ++ tag).length)
      | none => []
  | none => []

/-- Modelled from the spec: the response "contains any fenced block" — a
fence followed later by a closing fence. -/
def has_fenced_block (r : List Char) : Bool :=
  match findSub r fence with
  | some i => (findFrom r fence (i + 3)).isSome
  | none => false

/-- Modelled from the spec: the interior of the first fenced block. -/
def first_block_interior (r : List Char) : List Char :=
  match findSub r fence with
  | some i =>
      match findFrom r fence (i + 3) with
      | some j => (r.take j).drop (i + 3)
      | none => []
  | none => []

/-- Every fence opener occurring in the response is followed by a closing
fence (no unterminated block). -/
def well_fenced (r tag : List Char) : Bool :=
  (match findSub r (fence ++ tag) with
   | some i => (findFrom r fence (i + (fence ++ tag).length)).isSome
   | none => true) &&
  (match findSub r fence with
   | some i => (findFrom r fence (i + 3)).isSome
   | none => true)

/-- The extraction contract exactly as the specification states it, for
`_extract_code_from_response`: tagged block interior trimmed, else first
block interior trimmed, else the whole response trimmed. -/
def extraction_claim (response language : String) : Prop :=
  (has_tagged_block response.data language.data = true →
    extract_code_from_response response language =
      String.mk (pyStrip (tagged_block_interior response.data language.data))) ∧
  (has_tagged_block response.data language.data = false →
    has_fenced_block response.data = true →
    extract_code_from_response response language =
      String.mk (pyStrip (first_block_interior response.data))) ∧
  (has_tagged_block response.data language.data = false →
    has_fenced_block response.data = false →
    extract_code_from_response response language = String.mk (pyStrip response.data))

/-! ### JSON extraction and node enhancement (`app/services/ai_service.py`) -/

/-- The string handed to `json.loads` by `_extract_json_from_response`: the
same fenced-block extraction with the fixed tag `json`. -/
def json_candidate (response : String) : String :=
  String.mk (extract_tagged "json".data response.data)

/-- `AIService._extract_json_from_response` (lines 300-318). `json.loads` is
the external standard-library parser, passed as the oracle `parse` (`none`
models a `JSONDecodeError`). On parse failure the function returns the
substitute dictionary instead of raising. -/
def extract_json_from_response (parse : String → Option PyVal) (response : String) :
    PyVal :=
  match parse (json_candidate response) with
  | some v => v
  | none => .obj [("raw_response", .str (json_candidate response))]

/-- Outcome of one call to `_extract_json_from_response` seen from the
caller: the Python function returns normally on both paths, so the outcome is
always `Except.ok` of its value. -/
def extract_json_outcome (parse : String → Option PyVal) (response : String) :
    Except String PyVal :=
  .ok (extract_json_from_response parse response)

/-- `AIService.enhance_node_configuration` (lines 130-152). The collaborator
call (`_generate_content` on `_build_enhancement_prompt(node)`) is modelled by
the oracles `generate` and `build_prompt`; its `except` block only logs and
re-raises, so a collaborator error propagates unchanged, and a successful
response is pushed through `_extract_json_from_response`. -/
def enhance_node_configuration (generate : String → Except String String)
    (parse : String → Option PyVal) (build_prompt : WorkflowNode → String)
    (node : WorkflowNode) : Except String PyVal :=
  match generate (build_prompt node) with
  | .error e => .error e
  | .ok response => .ok (extract_json_from_response parse response)

/-! ### AI suggestions (`WorkflowService._generate_ai_suggestions`) -/

/-- The fixed tail of general best-practice suggestions appended by
`_generate_ai_suggestions` (lines 642-648). -/
def general_suggestions : List String :=
  ["Consider adding error handling and retry logic",
   "Implement proper logging and monitoring",
   "Add input validation for all endpoints",
   "Consider using Cloud Monitoring for observability",
   "Implement proper authentication and authorization"]

/-- The per-node loop of `_generate_ai_suggestions` (lines 635-639), with the
mutable `suggestions` list as the accumulator. The oracle `enhance` models
`await self.ai_service.enhance_node_configuration(node)` followed by the
`"suggestions" in enhanced` lookup: `.error e` is a raised exception,
`.ok none` a result without a `suggestions` key, `.ok (some ss)` a result
whose `suggestions` key holds the string list `ss`. The result pairs the
accumulated suggestions with the first raised exception, if any — an
exception escapes the loop at once, leaving the suggestions gathered so far. -/
def suggestions_loop (enhance : WorkflowNode → Except String (Option (List String))) :
    List String → List WorkflowNode → List String × Option String
  | acc, [] => (acc, none)
  | acc, n :: rest =>
      if pyStrFalsy n.config.ai_prompt then suggestions_loop enhance acc rest
      else
        match enhance n with
        | .error e => (acc, some e)
        | .ok none => suggestions_loop enhance acc rest
        | .ok (some ss) => suggestions_loop enhance (acc ++ ss) rest

/-- `WorkflowService._generate_ai_suggestions` (lines 629-653): the whole
loop and the general-tail extension sit inside one `try`; the `except` logs
the warning and falls through to `return suggestions[:10]`, so on an
exception the general tail is never appended and only the suggestions
accumulated before the failure survive, truncated to 10. -/
def generate_ai_suggestions
    (enhance : WorkflowNode → Except String (Option (List String)))
    (w : Workflow) : List String :=
  match suggestions_loop enhance [] w.nodes with
  | (acc, none) => (acc ++ general_suggestions).take 10
  | (acc, some _) => acc.take 10

/-! ### The generate endpoint (`app/api/v1/endpoints/workflows.py`) -/

/-- Error payload shapes the handler builds: FastAPI's `HTTPException` detail
is either a plain string or the `{message, issues}` object. -/
inductive ErrDetail : Type where
  | plain (s : String)
  | payload (message : String) (issues : List String)
deriving DecidableEq, Repr

/-- Python exceptions crossing the handler's `try` block: an
`HTTPException(status, detail)` or any other exception with its message. -/
inductive PyExn : Type where
  | http (status : Nat) (detail : ErrDetail)
  | general (message : String)
deriving DecidableEq, Repr

/-- The HTTP-level outcome of one handler invocation. -/
inductive EndpointOutcome (α : Type) : Type where
  | success (value : α)
  | failure (status : Nat) (detail : ErrDetail)
deriving DecidableEq, Repr

/-- The `POST /workflows/generate` handler (lines 23-63). Everything inside
the `try` is modelled by an `Except PyExn` computation: a non-empty validator
result raises `HTTPException(400, {message, issues})`; the awaited
`generate_workflow_code` call is the oracle `generation`, whose failure
raises an ordinary exception. The blanket `except Exception` catches EVERY
exception — including the just-raised `HTTPException(400, ...)` — and
re-raises `HTTPException(500, str(e))`; `str` on an exception is the external
`exn_str` parameter. -/
def generate_endpoint {α : Type} (exn_str : PyExn → String)
    (request : WorkflowGenerationRequest) (generation : Except String α) :
    EndpointOutcome α :=
  let body : Except PyExn α :=
    if (validate_workflow request.workflow).isEmpty then
      match generation with
      | .error m => .error (.general m)
      | .ok v => .ok v
    else
      .error (.http 400 (.payload "Workflow validation failed"
        (validate_workflow request.workflow)))
  match body with
  | .ok v => .success v
  | .error e => .failure 500 (.plain (exn_str e))

/-! ### Concrete inputs used by witnesses and counterexamples -/

/-- A minimal metadata value. -/
def meta0 : WorkflowMetadata := { name := "demo-workflow" }

/-- Compiler settings with a concrete project id. -/
def st0 : Settings := { GOOGLE_CLOUD_PROJECT := "my-project" }

/-- A start node. -/
def start_node : WorkflowNode :=
  { id := "start-1", type := .start, config := { name := "Start" } }

/-- An end node. -/
def end_node : WorkflowNode :=
  { id := "end-1", type := .end_, config := { name := "End" } }

/-- An HTTP-request node with a URL. -/
def http_node : WorkflowNode :=
  { id := "http-1", type := .http_request,
    config := { name := "HTTP Request", url := some "https://api.example.com/data" } }

/-- A cloud-function node that no connection touches. -/
def orphan_fn_node : WorkflowNode :=
  { id := "fn-1", type := .cloud_function,
    config := { name := "Process Data", function_name := some "process-data" } }

/-- A second orphaned cloud-function node. -/
def orphan_fn_node2 : WorkflowNode :=
  { id := "fn-2", type := .cloud_function,
    config := { name := "Transform Data", function_name := some "transform-data" } }

/-- A node carrying a generation hint, whose enhancement will fail. -/
def hint_node1 : WorkflowNode :=
  { id := "hint-1", type := .cloud_function,
    config := { name := "Hinted A", function_name := some "fa", ai_prompt := some "do a" } }

/-- A second node carrying a generation hint, whose enhancement would
succeed. -/
def hint_node2 : WorkflowNode :=
  { id := "hint-2", type := .cloud_function,
    config := { name := "Hinted B", function_name := some "fb", ai_prompt := some "do b" } }

/-- The start-to-end connection shared by several concrete workflows. -/
def conn_start_end : WorkflowConnection :=
  { id := "conn-1", source_node_id := "start-1", target_node_id := "end-1" }

/-- A workflow with no nodes at all. -/
def w_empty : Workflow :=
  { id := "w-empty", metadata := meta0, nodes := [], connections := [] }

/-- Start, one orphaned cloud-function node, end. -/
def w_orphan : Workflow :=
  { id := "w-orphan", metadata := meta0,
    nodes := [start_node, orphan_fn_node, end_node],
    connections := [conn_start_end] }

/-- Start, two orphaned cloud-function nodes, end. -/
def w_two_orphans : Workflow :=
  { id := "w-two-orphans", metadata := meta0,
    nodes := [start_node, orphan_fn_node, orphan_fn_node2, end_node],
    connections := [conn_start_end] }

/-- Start, an HTTP node, end — a workflow the compiler is run on. -/
def w_compile : Workflow :=
  { id := "w-compile", metadata := meta0,
    nodes := [start_node, http_node, end_node],
    connections := [conn_start_end,
      { id := "conn-2", source_node_id := "start-1", target_node_id := "http-1" },
      { id := "conn-3", source_node_id := "http-1", target_node_id := "end-1" }] }

/-- The workflow value produced by a successful `mkWorkflow` construction
from a start node and an end node. -/
def w_valid : Workflow :=
  { id := "w-valid", metadata := meta0, nodes := [start_node, end_node],
    connections := [] }

/-- A workflow with two hint-carrying nodes, for the suggestion loop. -/
def w_hints : Workflow :=
  { id := "w-hints", metadata := meta0,
    nodes := [start_node, hint_node1, hint_node2, end_node],
    connections := [conn_start_end] }

/-- A generation request whose workflow fails validation (one orphaned
cloud-function node). -/
def req_orphan : WorkflowGenerationRequest := { workflow := w_orphan }

/-- A suggestion-enhancement oracle that raises on the first hinted node and
would succeed with `["s2"]` on every other node. -/
def enhance_cex (n : WorkflowNode) : Except String (Option (List String)) :=
  if n.id == "hint-1" then .error "collaborator unreachable"
  else .ok (some ["s2"])

/-! ### Helper lemmas -/

theorem string_append_data (s t : String) : (s ++ t).data = s.data ++ t.data := by
  cases s
  cases t
  rfl

theorem steps_aux_eq (st : Settings) : ∀ (ns : List WorkflowNode) (i : Nat),
    steps_aux st i ns =
      ((ns.enumFrom i).filter fun p => !(p.2.type == WorkflowNodeType.start)).map
        fun p => step_entry st p.1 p.2 := by
  intro ns
  induction ns with
  | nil => intro i; rfl
  | cons n rest ih =>
      intro i
      cases h : n.type == WorkflowNodeType.start with
      | true => simp [steps_aux, h, List.enumFrom, List.filter_cons, ih]
      | false => simp [steps_aux, h, List.enumFrom, List.filter_cons, ih]

theorem steps_aux_length (st : Settings) : ∀ (ns : List WorkflowNode) (i : Nat),
    (steps_aux st i ns).length =
      (ns.filter fun n => !(n.type == WorkflowNodeType.start)).length := by
  intro ns
  induction ns with
  | nil => intro i; rfl
  | cons n rest ih =>
      intro i
      cases h : n.type == WorkflowNodeType.start with
      | true => simp [steps_aux, h, List.filter_cons, ih]
      | false => simp [steps_aux, h, List.filter_cons, ih]

theorem steps_aux_mem (st : Settings) : ∀ (ns : List WorkflowNode) (k : Nat)
    (p : String × PyVal), p ∈ steps_aux st k ns →
    ∃ j n, ns.get? j = some n ∧ ¬ n.type = WorkflowNodeType.start ∧
      p = step_entry st (k + j) n := by
  intro ns
  induction ns with
  | nil =>
      intro k p h
      rw [show steps_aux st k [] = [] from rfl] at h
      exact absurd h (List.not_mem_nil p)
  | cons n rest ih =>
      intro k p h
      cases hc : n.type == WorkflowNodeType.start with
      | true =>
          rw [steps_aux, if_pos (by simp [hc])] at h
          obtain ⟨j, m, hj, hm, hp⟩ := ih (k + 1) p h
          refine ⟨j + 1, m, by simpa using hj, hm, ?_⟩
          have harith : k + (j + 1) = (k + 1) + j := by omega
          rw [harith]
          exact hp
      | false =>
          rw [steps_aux, if_neg (by simp [hc])] at h
          rcases List.mem_cons.mp h with heq | htail
          · refine ⟨0, n, by simp, by simpa using hc, ?_⟩
            simpa using heq
          · obtain ⟨j, m, hj, hm, hp⟩ := ih (k + 1) p htail
            refine ⟨j + 1, m, by simpa using hj, hm, ?_⟩
            have harith : k + (j + 1) = (k + 1) + j := by omega
            rw [harith]
            exact hp

theorem suggestions_loop_append
    (enhance : WorkflowNode → Except String (Option (List String))) :
    ∀ (xs ys : List WorkflowNode) (acc : List String),
    suggestions_loop enhance acc (xs ++ ys) =
      match suggestions_loop enhance acc xs with
      | (a, none) => suggestions_loop enhance a ys
      | (a, some e) => (a, some e) := by
  intro xs
  induction xs with
  | nil => intro ys acc; rfl
  | cons n rest ih =>
      intro ys acc
      cases hp : pyStrFalsy n.config.ai_prompt with
      | true => simp [suggestions_loop, hp, ih]
      | false =>
          cases he : enhance n with
          | error e => simp [suggestions_loop, hp, he]
          | ok o =>
              cases o with
              | none => simp [suggestions_loop, hp, he, ih]
              | some ss => simp [suggestions_loop, hp, he, ih]

theorem mem_connectivity_issues_head {w : Workflow} {s : String}
    (h : s ∈ connectivity_issues w) : s.data.head? = some 'N' := by
  unfold connectivity_issues at h
  rcases List.mem_map.mp h with ⟨n, _, rfl⟩
  cases hn : n.config.name with
  | mk d => rfl

theorem mem_validate_node_config_head {n : WorkflowNode} {s : String}
    (h : s ∈ validate_node_config n) :
    s.data.head? = some 'C' ∨ s.data.head? = some 'P' ∨ s.data.head? = some 'H' := by
  unfold validate_node_config at h
  split at h <;>
  first
    | exact absurd h (List.not_mem_nil s)
    | (split at h
       · rcases List.mem_singleton.mp h with rfl
         cases hn : n.config.name with
         | mk d =>
             first
               | exact Or.inl rfl
               | exact Or.inr (Or.inl rfl)
               | exact Or.inr (Or.inr rfl)
       · exact absurd h (List.not_mem_nil s))

/-! ### Claim theorems -/

/-- C5: for every workflow with zero nodes, validation returns an issue list
containing at least the missing-Start-node issue and the missing-End-node
issue, and the validate endpoint reports `is_valid = false` for it. -/
theorem c5_zero_nodes_validation : ∀ w : Workflow, w.nodes = [] →
    "Workflow must have exactly one START node" ∈ validate_workflow w ∧
    "Workflow must have at least one END node" ∈ validate_workflow w ∧
    (validate_endpoint w).is_valid = false := by
  intro w h
  have hv : validate_workflow w =
      ["Workflow must have exactly one START node",
       "Workflow must have at least one END node"] := by
    unfold validate_workflow connectivity_issues
    rw [h]
    rfl
  refine ⟨by rw [hv]; simp, by rw [hv]; simp, ?_⟩
  simp [validate_endpoint, hv]

theorem c5_witness :
    w_empty.nodes = [] ∧
    ("Workflow must have exactly one START node" ∈ validate_workflow w_empty ∧
     "Workflow must have at least one END node" ∈ validate_workflow w_empty ∧
     (validate_endpoint w_empty).is_valid = false) :=
  ⟨rfl, c5_zero_nodes_validation w_empty rfl⟩

/-- C7: the deterministic compiler walks the node sequence in order and emits
exactly one keyed step entry per non-`start` node — nothing for `start`
nodes, the terminal return step referencing the `${result}` variable for
`end` nodes, and the lowered step for every other node. -/
theorem c7_compiler_emission : ∀ (st : Settings) (w : Workflow),
    workflow_steps st w =
      ((w.nodes.enum.filter fun p => !(p.2.type == WorkflowNodeType.start)).map
        fun p => step_entry st p.1 p.2) ∧
    (workflow_steps st w).length =
      (w.nodes.filter fun n => !(n.type == WorkflowNodeType.start)).length ∧
    (∀ (i : Nat) (n : WorkflowNode), n.type = WorkflowNodeType.end_ →
      step_entry st i n =
        ("end_step_" ++ toString i, PyVal.obj [("return", PyVal.str "${result}")])) ∧
    (∀ (i : Nat) (n : WorkflowNode), ¬ n.type = WorkflowNodeType.end_ →
      step_entry st i n = ("step_" ++ toString i, node_to_workflow_step st n)) := by
  intro st w
  refine ⟨?_, steps_aux_length st w.nodes 0, ?_, ?_⟩
  · show steps_aux st 0 w.nodes = _
    rw [steps_aux_eq st w.nodes 0]
    rfl
  · intro i n h
    simp [step_entry, h]
  · intro i n h
    simp [step_entry, h]

/-- C8: validating the same workflow value twice yields identical issue
lists, compiling it twice yields byte-identical serialized step-documents
(for any serializer), and neither call changes the workflow value. -/
theorem c8_validate_compile_idempotent :
    ∀ (dump : PyVal → String) (st : Settings) (w : Workflow),
    (validate_workflow_call w).1 =
      (validate_workflow_call ((validate_workflow_call w).2)).1 ∧
    (validate_workflow_call w).2 = w ∧
    (generate_basic_workflow_yaml_call dump st w).1 =
      (generate_basic_workflow_yaml_call dump st
        ((generate_basic_workflow_yaml_call dump st w).2)).1 ∧
    (generate_basic_workflow_yaml_call dump st w).2 = w :=
  fun _ _ _ => ⟨rfl, rfl, rfl, rfl⟩

/-- C10: every workflow value that survives the pydantic constructor check
has a non-empty node list with exactly one `start` node and at least one
`end` node, so the validator's two cardinality issues can never be produced
for it. -/
theorem c10_constructed_workflow_cardinality :
    ∀ (id : String) (md : WorkflowMetadata) (ns : List WorkflowNode)
      (cs : List WorkflowConnection) (w : Workflow),
    mkWorkflow id md ns cs = .ok w →
    w.nodes ≠ [] ∧
    (w.nodes.filter fun n => n.type == WorkflowNodeType.start).length = 1 ∧
    1 ≤ (w.nodes.filter fun n => n.type == WorkflowNodeType.end_).length ∧
    "Workflow must have exactly one START node" ∉ validate_workflow w ∧
    "Workflow must have at least one END node" ∉ validate_workflow w := by
  intro id md ns cs w h
  cases hv : Workflow.validate_nodes ns with
  | error e =>
      rw [mkWorkflow, hv] at h
      exact absurd h (by simp)
  | ok ns' =>
      rw [mkWorkflow, hv] at h
      have hw : w = ⟨id, md, ns', cs⟩ := by
        injection h with h'
        exact h'.symm
      rw [Workflow.validate_nodes] at hv
      by_cases h1 : ns.isEmpty
      · rw [if_pos h1] at hv; exact absurd hv (by simp)
      · rw [if_neg h1] at hv
        by_cases h2 : (ns.filter fun n => n.type == WorkflowNodeType.start).length ≠ 1
        · rw [if_pos h2] at hv; exact absurd hv (by simp)
        · rw [if_neg h2] at hv
          by_cases h3 : (ns.filter fun n => n.type == WorkflowNodeType.end_).length < 1
          · rw [if_pos h3] at hv; exact absurd hv (by simp)
          · rw [if_neg h3] at hv
            have hns : ns = ns' := Except.ok.inj hv
            subst hns
            subst hw
            have hstart : ((⟨id, md, ns, cs⟩ : Workflow).nodes.filter
                (fun n => n.type == WorkflowNodeType.start)).length = 1 := by
              show (ns.filter fun n => n.type == WorkflowNodeType.start).length = 1
              omega
            have hend : ¬ ((⟨id, md, ns, cs⟩ : Workflow).nodes.filter
                (fun n => n.type == WorkflowNodeType.end_)).length = 0 := by
              show ¬ (ns.filter fun n => n.type == WorkflowNodeType.end_).length = 0
              omega
            refine ⟨?_, hstart, ?_, ?_, ?_⟩
            · show ns ≠ []
              intro hnil
              rw [hnil] at h1
              exact h1 rfl
            · show 1 ≤ (ns.filter fun n => n.type == WorkflowNodeType.end_).length
              omega
            · intro hmem
              unfold validate_workflow at hmem
              rw [if_pos hstart, if_neg hend] at hmem
              simp only [List.nil_append] at hmem
              rcases List.mem_append.mp hmem with hconn | hcfg
              · exact absurd (mem_connectivity_issues_head hconn) (by decide)
              · rcases List.mem_flatten.mp hcfg with ⟨l, hl, hsl⟩
                rcases List.mem_map.mp hl with ⟨n, _, rfl⟩
                rcases mem_validate_node_config_head hsl with hh | hh | hh <;>
                  exact absurd hh (by decide)
            · intro hmem
              unfold validate_workflow at hmem
              rw [if_pos hstart, if_neg hend] at hmem
              simp only [List.nil_append] at hmem
              rcases List.mem_append.mp hmem with hconn | hcfg
              · exact absurd (mem_connectivity_issues_head hconn) (by decide)
              · rcases List.mem_flatten.mp hcfg with ⟨l, hl, hsl⟩
                rcases List.mem_map.mp hl with ⟨n, _, rfl⟩
                rcases mem_validate_node_config_head hsl with hh | hh | hh <;>
                  exact absurd hh (by decide)

theorem c10_witness :
    mkWorkflow "w-valid" meta0 [start_node, end_node] [] = .ok w_valid ∧
    (w_valid.nodes ≠ [] ∧
     (w_valid.nodes.filter fun n => n.type == WorkflowNodeType.start).length = 1 ∧
     1 ≤ (w_valid.nodes.filter fun n => n.type == WorkflowNodeType.end_).length ∧
     "Workflow must have exactly one START node" ∉ validate_workflow w_valid ∧
     "Workflow must have at least one END node" ∉ validate_workflow w_valid) :=
  ⟨rfl, c10_constructed_workflow_cardinality "w-valid" meta0 [start_node, end_node] [] w_valid rfl⟩

theorem end_key_ne_step_key (s : String) : ¬ "end_step_2" = "step_" ++ s := by
  intro h
  have hd := congrArg String.data h
  have h2 : ("step_" ++ s).data = 's' :: 't' :: 'e' :: 'p' :: '_' :: s.data := by
    cases s with
    | mk d => rfl
  have h1 : "end_step_2".data =
      'e' :: 'n' :: 'd' :: '_' :: 's' :: 't' :: 'e' :: 'p' :: '_' :: '2' :: [] := rfl
  rw [h1, h2] at hd
  injection hd with hc _
  exact absurd hc (by decide)

/-- C9 (amended): for an orphaned `CloudFunction` node the validator emits a
connectivity issue naming the node's display name; the number of connectivity
issues equals the number of orphaned non-start/end nodes (one per orphan), so
it is exactly one precisely when that node is the only orphan. -/
theorem c9_orphan_issue : ∀ (w : Workflow) (n : WorkflowNode),
    n ∈ w.nodes → n.type = WorkflowNodeType.cloud_function →
    is_connected w n = false →
    ("Node '" ++ n.config.name ++ "' is not connected") ∈ validate_workflow w ∧
    (connectivity_issues w).length =
      (w.nodes.filter fun m => is_middle_node m && !(is_connected w m)).length ∧
    (w.nodes.filter (fun m => is_middle_node m && !(is_connected w m)) = [n] →
      (connectivity_issues w).length = 1) := by
  intro w n hmem htype hconn
  have hpred : (is_middle_node n && !(is_connected w n)) = true := by
    simp [is_middle_node, htype, hconn]
  have hfilter : n ∈ w.nodes.filter fun m => is_middle_node m && !(is_connected w m) :=
    List.mem_filter.mpr ⟨hmem, hpred⟩
  have hissue : ("Node '" ++ n.config.name ++ "' is not connected") ∈ connectivity_issues w := by
    unfold connectivity_issues
    exact List.mem_map.mpr ⟨n, hfilter, rfl⟩
  refine ⟨?_, ?_, ?_⟩
  · unfold validate_workflow
    exact List.mem_append.mpr (Or.inl (List.mem_append.mpr (Or.inr hissue)))
  · simp [connectivity_issues]
  · intro hone
    unfold connectivity_issues
    rw [hone]
    rfl

theorem c9_witness :
    (orphan_fn_node ∈ w_orphan.nodes ∧
     orphan_fn_node.type = WorkflowNodeType.cloud_function ∧
     is_connected w_orphan orphan_fn_node = false) ∧
    (("Node '" ++ orphan_fn_node.config.name ++ "' is not connected") ∈
        validate_workflow w_orphan ∧
     (connectivity_issues w_orphan).length =
       (w_orphan.nodes.filter fun m =>
         is_middle_node m && !(is_connected w_orphan m)).length ∧
     (w_orphan.nodes.filter (fun m =>
         is_middle_node m && !(is_connected w_orphan m)) = [orphan_fn_node] →
       (connectivity_issues w_orphan).length = 1)) :=
  ⟨⟨by decide, by decide, by decide⟩,
   c9_orphan_issue w_orphan orphan_fn_node (by decide) (by decide) (by decide)⟩

/-- C9 counterexample: a workflow with two orphaned `CloudFunction` nodes
satisfies the claim's premise for `orphan_fn_node`, yet validation produces
two connectivity issues, not exactly one. -/
theorem c9_counterexample :
    orphan_fn_node ∈ w_two_orphans.nodes ∧
    orphan_fn_node.type = WorkflowNodeType.cloud_function ∧
    is_connected w_two_orphans orphan_fn_node = false ∧
    (connectivity_issues w_two_orphans).length = 2 ∧
    ¬ (connectivity_issues w_two_orphans).length = 1 := by
  decide

/-- C3 (amended): every step entry emitted by the deterministic compiler
comes from the node at some position `i` of the node sequence; a non-`end`
node's entry is keyed `step_<i>`, while an `end` node's entry is keyed
`end_step_<i>`. -/
theorem c3_step_keys : ∀ (st : Settings) (w : Workflow) (p : String × PyVal),
    p ∈ workflow_steps st w →
    ∃ i n, w.nodes.get? i = some n ∧ ¬ n.type = WorkflowNodeType.start ∧
      p = step_entry st i n ∧
      (n.type = WorkflowNodeType.end_ → p.1 = "end_step_" ++ toString i) ∧
      (¬ n.type = WorkflowNodeType.end_ → p.1 = "step_" ++ toString i) := by
  intro st w p h
  obtain ⟨j, n, hj, hn, hp⟩ := steps_aux_mem st w.nodes 0 p h
  have hp' : p = step_entry st j n := by simpa using hp
  refine ⟨j, n, hj, hn, hp', ?_, ?_⟩
  · intro hend
    rw [hp']
    simp [step_entry, hend]
  · intro hend
    rw [hp']
    simp [step_entry, hend]

theorem w_compile_steps : workflow_steps st0 w_compile =
    [("step_1", node_to_workflow_step st0 http_node),
     ("end_step_2", PyVal.obj [("return", PyVal.str "${result}")])] := rfl

theorem c3_witness :
    (("end_step_2", PyVal.obj [("return", PyVal.str "${result}")]) ∈
       workflow_steps st0 w_compile) ∧
    (∃ i n, w_compile.nodes.get? i = some n ∧ ¬ n.type = WorkflowNodeType.start ∧
      ("end_step_2", PyVal.obj [("return", PyVal.str "${result}")]) = step_entry st0 i n ∧
      (n.type = WorkflowNodeType.end_ →
        (("end_step_2", PyVal.obj [("return", PyVal.str "${result}")]) : String × PyVal).1 =
          "end_step_" ++ toString i) ∧
      (¬ n.type = WorkflowNodeType.end_ →
        (("end_step_2", PyVal.obj [("return", PyVal.str "${result}")]) : String × PyVal).1 =
          "step_" ++ toString i)) :=
  ⟨by rw [w_compile_steps]; exact List.mem_cons_of_mem _ (List.mem_cons_self _ _),
   c3_step_keys st0 w_compile _
     (by rw [w_compile_steps]; exact List.mem_cons_of_mem _ (List.mem_cons_self _ _))⟩

/-- C3 counterexample: the compiler emits a step for the `end` node of
`w_compile` whose key `end_step_2` is not of the form `step_<index>` for any
index, refuting the claim that every emitted step is keyed `step_<index>`. -/
theorem c3_counterexample :
    ∃ p : String × PyVal, p ∈ workflow_steps st0 w_compile ∧
      ∀ i : Nat, ¬ p.1 = "step_" ++ toString i := by
  refine ⟨("end_step_2", PyVal.obj [("return", PyVal.str "${result}")]),
    by rw [w_compile_steps]; exact List.mem_cons_of_mem _ (List.mem_cons_self _ _), ?_⟩
  intro i
  exact end_key_ne_step_key (toString i)

/-- C1 (code bug): when the workflow fails validation, the handler's own
`HTTPException(400, {message, issues})` is swallowed by the blanket
`except Exception` and re-raised as a 500 whose detail is the stringified
exception — the request is answered with 500, never with the documented 400
payload and never with success. -/
theorem c1_validation_rejection_yields_500 {α : Type} :
    ∀ (exn_str : PyExn → String) (request : WorkflowGenerationRequest)
      (generation : Except String α),
    ¬ validate_workflow request.workflow = [] →
    generate_endpoint exn_str request generation =
      .failure 500 (.plain (exn_str (.http 400 (.payload "Workflow validation failed"
        (validate_workflow request.workflow))))) ∧
    (∀ d : ErrDetail, ¬ generate_endpoint exn_str request generation = .failure 400 d) ∧
    (∀ v : α, ¬ generate_endpoint exn_str request generation = .success v) := by
  intro exn_str request generation h
  have hne : (validate_workflow request.workflow).isEmpty = false := by
    cases hcase : validate_workflow request.workflow with
    | nil => exact absurd hcase h
    | cons a l => rfl
  have heq : generate_endpoint exn_str request generation =
      .failure 500 (.plain (exn_str (.http 400 (.payload "Workflow validation failed"
        (validate_workflow request.workflow))))) := by
    simp [generate_endpoint, hne]
  refine ⟨heq, ?_, ?_⟩
  · intro d hd
    rw [heq] at hd
    injection hd with h1 _
    exact absurd h1 (by decide)
  · intro v hv
    rw [heq] at hv
    exact EndpointOutcome.noConfusion hv

theorem c1_witness :
    ¬ validate_workflow req_orphan.workflow = [] ∧
    (generate_endpoint (fun _ => "internal error") req_orphan (Except.ok (0 : Nat)) =
       .failure 500 (.plain "internal error") ∧
     (∀ d : ErrDetail, ¬ generate_endpoint (fun _ => "internal error") req_orphan
        (Except.ok (0 : Nat)) = .failure 400 d) ∧
     (∀ v : Nat, ¬ generate_endpoint (fun _ => "internal error") req_orphan
        (Except.ok (0 : Nat)) = .success v)) :=
  ⟨by decide,
   c1_validation_rejection_yields_500 (fun _ => "internal error") req_orphan
     (Except.ok (0 : Nat)) (by decide)⟩

/-- C2 counterexample: with two hint-carrying nodes and a collaborator that
fails on the first, the returned suggestion list is empty — the second node's
suggestions are never collected and the general best-practice tail is not
appended. -/
theorem c2_counterexample :
    generate_ai_suggestions enhance_cex w_hints = [] ∧
    hint_node2 ∈ w_hints.nodes ∧
    pyStrFalsy hint_node2.config.ai_prompt = false ∧
    enhance_cex hint_node2 = .ok (some ["s2"]) ∧
    ¬ "s2" ∈ generate_ai_suggestions enhance_cex w_hints ∧
    ¬ "Consider adding error handling and retry logic" ∈
        generate_ai_suggestions enhance_cex w_hints := by
  have h0 : generate_ai_suggestions enhance_cex w_hints = [] := rfl
  refine ⟨h0, by decide, rfl, rfl, ?_, ?_⟩
  · rw [h0]; exact List.not_mem_nil _
  · rw [h0]; exact List.not_mem_nil _

/-- C2 (amended): a collaborator failure during per-node suggestion
collection does not abort the request — the function still returns — but it
stops the collection: once the loop over a prefix of the nodes ends in an
exception, the remaining nodes are never consulted (the result does not
depend on them) and the general tail is not appended; only the suggestions
accumulated before the failure, truncated to 10, are returned. -/
theorem c2_failure_stops_collection :
    ∀ (enhance : WorkflowNode → Except String (Option (List String)))
      (w : Workflow) (pre post : List WorkflowNode) (acc : List String) (e : String),
    w.nodes = pre ++ post →
    suggestions_loop enhance [] pre = (acc, some e) →
    generate_ai_suggestions enhance w = acc.take 10 := by
  intro enhance w pre post acc e hnodes hpre
  unfold generate_ai_suggestions
  rw [hnodes, suggestions_loop_append enhance pre post [], hpre]

theorem c2_witness :
    (w_hints.nodes = [start_node, hint_node1] ++ [hint_node2, end_node] ∧
     suggestions_loop enhance_cex [] [start_node, hint_node1] =
       ([], some "collaborator unreachable")) ∧
    generate_ai_suggestions enhance_cex w_hints = List.take 10 [] :=
  ⟨⟨rfl, rfl⟩,
   c2_failure_stops_collection enhance_cex w_hints [start_node, hint_node1]
     [hint_node2, end_node] [] "collaborator unreachable" rfl rfl⟩

theorem extract_tagged_spec (r tag : List Char)
    (hw : well_fenced r tag = true) :
    (has_tagged_block r tag = true →
      extract_tagged tag r = pyStrip (tagged_block_interior r tag)) ∧
    (has_tagged_block r tag = false → has_fenced_block r = true →
      extract_tagged tag r = pyStrip (first_block_interior r)) ∧
    (has_tagged_block r tag = false → has_fenced_block r = false →
      extract_tagged tag r = pyStrip r) := by
  unfold well_fenced at hw
  rw [Bool.and_eq_true] at hw
  obtain ⟨hw1, hw2⟩ := hw
  cases h1 : findSub r (fence ++ tag) with
  | some i =>
      simp only [h1] at hw1
      cases h2 : findFrom r fence (i + (fence ++ tag).length) with
      | none =>
          rw [h2] at hw1
          exact absurd hw1 (by decide)
      | some j =>
          have ht : has_tagged_block r tag = true := by
            simp only [has_tagged_block, h1, h2, Option.isSome_some]
          refine ⟨fun _ => ?_, fun hf _ => ?_, fun hf _ => ?_⟩
          · simp only [extract_tagged, tagged_block_interior, slice_strip, h1, h2]
          · rw [ht] at hf
            exact absurd hf (by decide)
          · rw [ht] at hf
            exact absurd hf (by decide)
  | none =>
      have htf : has_tagged_block r tag = false := by
        simp only [has_tagged_block, h1]
      cases h2 : findSub r fence with
      | some k =>
          simp only [h2] at hw2
          cases h3 : findFrom r fence (k + 3) with
          | none =>
              rw [h3] at hw2
              exact absurd hw2 (by decide)
          | some m =>
              have hb : has_fenced_block r = true := by
                simp only [has_fenced_block, h2, h3, Option.isSome_some]
              refine ⟨fun hf => ?_, fun _ _ => ?_, fun _ hbf => ?_⟩
              · rw [htf] at hf
                exact absurd hf (by decide)
              · simp only [extract_tagged, first_block_interior, slice_strip, h1, h2, h3]
              · rw [hb] at hbf
                exact absurd hbf (by decide)
      | none =>
          have hbf : has_fenced_block r = false := by
            simp only [has_fenced_block, h2]
          refine ⟨fun hf => ?_, fun _ hb => ?_, fun _ _ => ?_⟩
          · rw [htf] at hf
            exact absurd hf (by decide)
          · rw [hbf] at hb
            exact absurd hb (by decide)
          · simp only [extract_tagged, h1, h2]

/-- C4 (amended): for every response whose fence openers are all closed, the
extraction contract holds exactly as specified — tagged-block interior
trimmed, else first-block interior trimmed, else the whole response trimmed —
and the YAML extractor is the same algorithm with the fixed tag `yaml`. (For
a response with an unterminated opener the code instead returns the text
after the opener with its final character dropped, trimmed: see the
counterexample.) -/
theorem c4_extraction_fallback :
    ∀ (response language : String),
    well_fenced response.data language.data = true →
    extraction_claim response language ∧
    extract_yaml_from_response response = extract_code_from_response response "yaml" := by
  intro r l hw
  obtain ⟨a, b, c⟩ := extract_tagged_spec r.data l.data hw
  refine ⟨⟨fun h => ?_, fun h1 h2 => ?_, fun h1 h2 => ?_⟩, rfl⟩
  · unfold extract_code_from_response
    rw [a h]
  · unfold extract_code_from_response
    rw [b h1 h2]
  · unfold extract_code_from_response
    rw [c h1 h2]

theorem c4_witness :
    well_fenced "x ```python\ncode body\n``` y".data "python".data = true ∧
    (extraction_claim "x ```python\ncode body\n``` y" "python" ∧
     extract_yaml_from_response "x ```python\ncode body\n``` y" =
       extract_code_from_response "x ```python\ncode body\n``` y" "yaml") :=
  ⟨by decide, c4_extraction_fallback "x ```python\ncode body\n``` y" "python" (by decide)⟩

/-- C4 counterexample: the response consisting of a tagged opener with no
closing fence contains no fenced block, so the claim requires the whole
trimmed response; the code instead slices with Python's `find` result `-1`,
dropping the final character, and returns `"ab"`. -/
theorem c4_counterexample : ¬ extraction_claim "```python\nabc" "python" := by
  intro h
  obtain ⟨-, -, h3⟩ := h
  have h3' := h3 (by decide) (by decide)
  have hcode : extract_code_from_response "```python\nabc" "python" = "ab" := rfl
  rw [hcode] at h3'
  exact absurd h3' (by decide)

/-- C6 counterexample: with a parser that rejects the candidate string, the
JSON extraction succeeds with the substitute `{"raw_response": ...}`
dictionary instead of failing with an error. -/
theorem c6_counterexample :
    extract_json_outcome (fun _ => none) "not json" =
      .ok (PyVal.obj [("raw_response", PyVal.str "not json")]) ∧
    (extract_json_outcome (fun _ => none) "not json").isOk = true :=
  ⟨rfl, rfl⟩

/-- C6 (amended): when the collaborator response is not parsable as JSON,
`_extract_json_from_response` does not raise: it returns the substitute
dictionary `{"raw_response": <extracted text>}`, and
`enhance_node_configuration` therefore succeeds with that substitute. -/
theorem c6_unparsable_json_substitute :
    ∀ (generate : String → Except String String) (parse : String → Option PyVal)
      (build_prompt : WorkflowNode → String) (node : WorkflowNode) (response : String),
    generate (build_prompt node) = .ok response →
    parse (json_candidate response) = none →
    enhance_node_configuration generate parse build_prompt node =
      .ok (PyVal.obj [("raw_response", PyVal.str (json_candidate response))]) ∧
    extract_json_outcome parse response =
      .ok (PyVal.obj [("raw_response", PyVal.str (json_candidate response))]) := by
  intro generate parse build_prompt node response hgen hparse
  have hext : extract_json_from_response parse response =
      PyVal.obj [("raw_response", PyVal.str (json_candidate response))] := by
    unfold extract_json_from_response
    rw [hparse]
  constructor
  · simp only [enhance_node_configuration, hgen, hext]
  · simp only [extract_json_outcome, hext]

theorem c6_witness :
    ((fun _ : String => (Except.ok "oops not json" : Except String String))
        ((fun _ : WorkflowNode => "prompt") end_node) = Except.ok "oops not json" ∧
     (fun _ : String => (none : Option PyVal)) (json_candidate "oops not json") = none) ∧
    (enhance_node_configuration (fun _ => Except.ok "oops not json") (fun _ => none)
        (fun _ => "prompt") end_node =
      .ok (PyVal.obj [("raw_response", PyVal.str (json_candidate "oops not json"))]) ∧
     extract_json_outcome (fun _ => none) "oops not json" =
      .ok (PyVal.obj [("raw_response", PyVal.str (json_candidate "oops not json"))])) :=
  ⟨⟨rfl, rfl⟩,
   c6_unparsable_json_substitute (fun _ => Except.ok "oops not json") (fun _ => none)
     (fun _ => "prompt") end_node "oops not json" rfl rfl⟩
